import Mathlib

/-!
Verification of `collector/pg_stat_database.go` (postgres_exporter).

Shallow embedding of `PGStatDatabaseCollector.Update` and its helpers:

* `Version` models `semver.Version` restricted to release versions
  (major/minor/patch; the detected server versions compared here carry no
  prerelease component, matching `semver.MustParse("14.0.0")`).
* `Row` models the scan destinations of one row: `sql.NullString` /
  `sql.NullFloat64` / `sql.NullTime` become `Option`; a numeric SQL value is
  modelled as `ℚ` (the code only moves the float64 around and performs one
  exact division by 1000).  `sql.NullTime`'s use is `statsReset.Time.Unix()`,
  an integer number of seconds, so it is modelled as `Option Int`.
* `Observation` models one `prometheus.MustNewConstMetric` pushed on the
  channel: the descriptor is identified by the third `BuildFQName` component
  (e.g. "numbackends"; the common `namespace_stat_database_` prefix is shared
  by every descriptor in this file and adds nothing).
* `processRow` is the body of the `for rows.Next()` loop after a successful
  `rows.Scan`: the chain of validity guards (each of which `continue`s,
  emitting nothing for the row), the `stats_reset` default, and the emission
  sequence.
* `consumeRows` is the row loop over the stream of scan results, where each
  element of the stream is either a decoded `Row` or a scan error
  (`rows.Scan` failing); it returns the observations pushed to the channel
  and the error returned, if any.
* `update` is `Update` itself: a query-execution error aborts with zero
  observations, otherwise the rows are consumed.
-/

/-- `semver.Version` (release part).  `GTE` is `v.Compare(o) >= 0`:
major, then minor, then patch, compared numerically. -/
structure Version where
  major : Nat
  minor : Nat
  patch : Nat
  deriving DecidableEq, Repr

def Version.GTE (v o : Version) : Bool :=
  if v.major ≠ o.major then decide (o.major < v.major)
  else if v.minor ≠ o.minor then decide (o.minor < v.minor)
  else decide (o.patch ≤ v.patch)

/-- `prometheus.GaugeValue` / `prometheus.CounterValue`. -/
inductive ValueKind where
  | gauge
  | counter
  deriving DecidableEq, Repr

/-- One metric pushed to the channel by `prometheus.MustNewConstMetric`:
descriptor (identified by its short name), value kind, value, and the
ordered label values. -/
structure Observation where
  name : String
  kind : ValueKind
  value : ℚ
  labels : List String
  deriving DecidableEq, Repr

/-- The scan destinations of one row of the query result
(`datid`, `datname` as `sql.NullString`; the numeric statistics as
`sql.NullFloat64`; `stats_reset` as `sql.NullTime`, used only through
`.Time.Unix()`; `active_time` scanned only when requested). -/
structure Row where
  datid : Option String
  datname : Option String
  numBackends : Option ℚ
  xactCommit : Option ℚ
  xactRollback : Option ℚ
  blksRead : Option ℚ
  blksHit : Option ℚ
  tupReturned : Option ℚ
  tupFetched : Option ℚ
  tupInserted : Option ℚ
  tupUpdated : Option ℚ
  tupDeleted : Option ℚ
  conflicts : Option ℚ
  tempFiles : Option ℚ
  tempBytes : Option ℚ
  deadlocks : Option ℚ
  blkReadTime : Option ℚ
  blkWriteTime : Option ℚ
  statsReset : Option Int
  activeTime : Option ℚ
  deriving DecidableEq, Repr

/-- The unconditional column list built at the top of `Update`. -/
def baseColumns : List String :=
  ["datid", "datname", "numbackends", "xact_commit", "xact_rollback",
   "blks_read", "blks_hit", "tup_returned", "tup_fetched", "tup_inserted",
   "tup_updated", "tup_deleted", "conflicts", "temp_files", "temp_bytes",
   "deadlocks", "blk_read_time", "blk_write_time", "stats_reset"]

/-- `instance.version.GTE(semver.MustParse("14.0.0"))`. -/
def activeTimeAvail (v : Version) : Bool :=
  v.GTE ⟨14, 0, 0⟩

/-- The column list requested for a detected version: the unconditional
columns, with "active_time" appended when `activeTimeAvail`. -/
def statDatabaseColumns (v : Version) : List String :=
  baseColumns ++ (if activeTimeAvail v then ["active_time"] else [])

/-- Go's `strings.Join(elems, sep)`. -/
def stringsJoin (elems : List String) (sep : String) : String :=
  match elems with
  | [] => ""
  | e :: rest => rest.foldl (fun acc x => acc ++ sep ++ x) e

/-- `statDatabaseQuery`:
`fmt.Sprintf("SELECT %s FROM pg_stat_database;", strings.Join(columns, ","))`. -/
def statDatabaseQuery (columns : List String) : String :=
  "SELECT " ++ stringsJoin columns "," ++ " FROM pg_stat_database;"

/-- The loop body after a successful `rows.Scan`: the validity guard chain
(any failing guard `continue`s — the row emits nothing), the `stats_reset`
sentinel default, and the ordered `ch <- MustNewConstMetric` sequence. -/
def processRow (avail : Bool) (r : Row) : List Observation :=
  if r.datid.isNone then []
  else if r.datname.isNone then []
  else if r.numBackends.isNone then []
  else if r.xactCommit.isNone then []
  else if r.xactRollback.isNone then []
  else if r.blksRead.isNone then []
  else if r.blksHit.isNone then []
  else if r.tupReturned.isNone then []
  else if r.tupFetched.isNone then []
  else if r.tupInserted.isNone then []
  else if r.tupUpdated.isNone then []
  else if r.tupDeleted.isNone then []
  else if r.conflicts.isNone then []
  else if r.tempFiles.isNone then []
  else if r.tempBytes.isNone then []
  else if r.deadlocks.isNone then []
  else if r.blkReadTime.isNone then []
  else if r.blkWriteTime.isNone then []
  else if avail && r.activeTime.isNone then []
  else
    let statsResetMetric : ℚ :=
      match r.statsReset with
      | none => 0
      | some t => (t : ℚ)
    let labels : List String := [r.datid.getD "", r.datname.getD ""]
    [⟨"numbackends", .gauge, r.numBackends.getD 0, labels⟩,
     ⟨"xact_commit", .counter, r.xactCommit.getD 0, labels⟩,
     ⟨"xact_rollback", .counter, r.xactRollback.getD 0, labels⟩,
     ⟨"blks_read", .counter, r.blksRead.getD 0, labels⟩,
     ⟨"blks_hit", .counter, r.blksHit.getD 0, labels⟩,
     ⟨"tup_returned", .counter, r.tupReturned.getD 0, labels⟩,
     ⟨"tup_fetched", .counter, r.tupFetched.getD 0, labels⟩,
     ⟨"tup_inserted", .counter, r.tupInserted.getD 0, labels⟩,
     ⟨"tup_updated", .counter, r.tupUpdated.getD 0, labels⟩,
     ⟨"tup_deleted", .counter, r.tupDeleted.getD 0, labels⟩,
     ⟨"conflicts", .counter, r.conflicts.getD 0, labels⟩,
     ⟨"temp_files", .counter, r.tempFiles.getD 0, labels⟩,
     ⟨"temp_bytes", .counter, r.tempBytes.getD 0, labels⟩,
     ⟨"deadlocks", .counter, r.deadlocks.getD 0, labels⟩,
     ⟨"blk_read_time", .counter, r.blkReadTime.getD 0, labels⟩,
     ⟨"blk_write_time", .counter, r.blkWriteTime.getD 0, labels⟩,
     ⟨"stats_reset", .counter, statsResetMetric, labels⟩]
    ++ (if avail then
          [⟨"active_time_seconds_total", .counter, r.activeTime.getD 0 / 1000,
            labels⟩]
        else [])

/-- The `for rows.Next()` loop over the stream of scan results: a scan error
is returned at once (rows already processed have already pushed their
observations); a decoded row contributes `processRow` and the loop goes on.
Returns the pushed observations and the returned error, if any. -/
def consumeRows (avail : Bool) :
    List (Except String Row) → List Observation × Option String
  | [] => ([], none)
  | .error e :: _ => ([], some e)
  | .ok r :: rest =>
      let res := consumeRows avail rest
      (processRow avail r ++ res.1, res.2)

/-- `Update`: on query-execution failure the error is returned with nothing
pushed; otherwise the rows are consumed and `nil` (here `none`) is returned
unless a scan fails. -/
def update (v : Version)
    (queryResult : Except String (List (Except String Row))) :
    List Observation × Option String :=
  match queryResult with
  | .error e => ([], some e)
  | .ok rows => consumeRows (activeTimeAvail v) rows

/-- `Update` with the database modelled as a function from query text to
query outcome: the query actually issued is `statDatabaseQuery` of the
version-selected columns. -/
def updateWithDB (v : Version)
    (db : String → Except String (List (Except String Row))) :
    List Observation × Option String :=
  update v (db (statDatabaseQuery (statDatabaseColumns v)))

/-! ## Helper predicates and lemmas -/

/-- All requested columns of the row are present: the guard chain of the
loop body fires on none of them.  (`stats_reset` is not required; its
absence is defaulted, not skipped.)  Each clause states that the
corresponding guard condition is false, in source order. -/
def RowComplete (avail : Bool) (r : Row) : Prop :=
  r.datid.isNone = false ∧ r.datname.isNone = false ∧
  r.numBackends.isNone = false ∧ r.xactCommit.isNone = false ∧
  r.xactRollback.isNone = false ∧ r.blksRead.isNone = false ∧
  r.blksHit.isNone = false ∧ r.tupReturned.isNone = false ∧
  r.tupFetched.isNone = false ∧ r.tupInserted.isNone = false ∧
  r.tupUpdated.isNone = false ∧ r.tupDeleted.isNone = false ∧
  r.conflicts.isNone = false ∧ r.tempFiles.isNone = false ∧
  r.tempBytes.isNone = false ∧ r.deadlocks.isNone = false ∧
  r.blkReadTime.isNone = false ∧ r.blkWriteTime.isNone = false ∧
  (avail && r.activeTime.isNone) = false

instance (avail : Bool) (r : Row) : Decidable (RowComplete avail r) := by
  unfold RowComplete; infer_instance

/-- The observation sequence a guard-surviving row pushes, in channel-send
order. -/
def emittedList (avail : Bool) (r : Row) : List Observation :=
  let statsResetMetric : ℚ :=
    match r.statsReset with
    | none => 0
    | some t => (t : ℚ)
  let labels : List String := [r.datid.getD "", r.datname.getD ""]
  [⟨"numbackends", .gauge, r.numBackends.getD 0, labels⟩,
   ⟨"xact_commit", .counter, r.xactCommit.getD 0, labels⟩,
   ⟨"xact_rollback", .counter, r.xactRollback.getD 0, labels⟩,
   ⟨"blks_read", .counter, r.blksRead.getD 0, labels⟩,
   ⟨"blks_hit", .counter, r.blksHit.getD 0, labels⟩,
   ⟨"tup_returned", .counter, r.tupReturned.getD 0, labels⟩,
   ⟨"tup_fetched", .counter, r.tupFetched.getD 0, labels⟩,
   ⟨"tup_inserted", .counter, r.tupInserted.getD 0, labels⟩,
   ⟨"tup_updated", .counter, r.tupUpdated.getD 0, labels⟩,
   ⟨"tup_deleted", .counter, r.tupDeleted.getD 0, labels⟩,
   ⟨"conflicts", .counter, r.conflicts.getD 0, labels⟩,
   ⟨"temp_files", .counter, r.tempFiles.getD 0, labels⟩,
   ⟨"temp_bytes", .counter, r.tempBytes.getD 0, labels⟩,
   ⟨"deadlocks", .counter, r.deadlocks.getD 0, labels⟩,
   ⟨"blk_read_time", .counter, r.blkReadTime.getD 0, labels⟩,
   ⟨"blk_write_time", .counter, r.blkWriteTime.getD 0, labels⟩,
   ⟨"stats_reset", .counter, statsResetMetric, labels⟩]
  ++ (if avail then
        [⟨"active_time_seconds_total", .counter, r.activeTime.getD 0 / 1000,
          labels⟩]
      else [])

/-- The version-gated tail of the column list ("active_time" is the only
version-gated column). -/
def gatedColumns (v : Version) : List String :=
  if activeTimeAvail v then ["active_time"] else []

/-- Some requested numeric non-reset-timestamp column of the row is
absent. -/
def MissingRequiredColumn (avail : Bool) (r : Row) : Prop :=
  r.numBackends = none ∨ r.xactCommit = none ∨ r.xactRollback = none ∨
  r.blksRead = none ∨ r.blksHit = none ∨ r.tupReturned = none ∨
  r.tupFetched = none ∨ r.tupInserted = none ∨ r.tupUpdated = none ∨
  r.tupDeleted = none ∨ r.conflicts = none ∨ r.tempFiles = none ∨
  r.tempBytes = none ∨ r.deadlocks = none ∨ r.blkReadTime = none ∨
  r.blkWriteTime = none ∨ (avail = true ∧ r.activeTime = none)

instance (avail : Bool) (r : Row) :
    Decidable (MissingRequiredColumn avail r) := by
  unfold MissingRequiredColumn; infer_instance

/-- Split a character list at every comma — the observer used to state that
the built query selects exactly the given columns in the given order. -/
def splitOnComma : List Char → List (List Char)
  | [] => [[]]
  | c :: cs =>
      let r := splitOnComma cs
      if c = ',' then [] :: r
      else (c :: r.headD []) :: r.tail

/-- The character contribution of the remaining columns inside the
separator fold of `stringsJoin`: a comma before each further column. -/
def joinTail (xs : List String) : List Char :=
  xs.foldr (fun x r => ',' :: x.data ++ r) []

/-! ## Concrete inputs for witnesses and counterexamples -/

/-- The end-to-end scenario row: id "12345", name "appdb", every column
populated, raw `active_time` 4200 (milliseconds). -/
def sampleRow : Row :=
  { datid := some "12345", datname := some "appdb",
    numBackends := some 3, xactCommit := some 25, xactRollback := some 1,
    blksRead := some 11, blksHit := some 12, tupReturned := some 13,
    tupFetched := some 14, tupInserted := some 15, tupUpdated := some 16,
    tupDeleted := some 17, conflicts := some 18, tempFiles := some 19,
    tempBytes := some 20, deadlocks := some 21, blkReadTime := some 22,
    blkWriteTime := some 23, statsReset := some 1685059842,
    activeTime := some 4200 }

theorem processRow_complete (avail : Bool) (r : Row)
    (h : RowComplete avail r) : processRow avail r = emittedList avail r := by
  obtain ⟨h1, h2, h3, h4, h5, h6, h7, h8, h9, h10, h11, h12, h13, h14, h15,
    h16, h17, h18, h19⟩ := h
  unfold processRow emittedList
  rw [if_neg (ne_true_of_eq_false h1), if_neg (ne_true_of_eq_false h2), if_neg (ne_true_of_eq_false h3), if_neg (ne_true_of_eq_false h4), if_neg (ne_true_of_eq_false h5), if_neg (ne_true_of_eq_false h6), if_neg (ne_true_of_eq_false h7), if_neg (ne_true_of_eq_false h8), if_neg (ne_true_of_eq_false h9), if_neg (ne_true_of_eq_false h10), if_neg (ne_true_of_eq_false h11), if_neg (ne_true_of_eq_false h12), if_neg (ne_true_of_eq_false h13), if_neg (ne_true_of_eq_false h14), if_neg (ne_true_of_eq_false h15), if_neg (ne_true_of_eq_false h16), if_neg (ne_true_of_eq_false h17), if_neg (ne_true_of_eq_false h18), if_neg (ne_true_of_eq_false h19)]

theorem processRow_of_not_complete (avail : Bool) (r : Row)
    (h : ¬ RowComplete avail r) : processRow avail r = [] := by
  unfold processRow
  by_cases h1 : r.datid.isNone = true
  · rw [if_pos h1]
  rw [if_neg h1]
  by_cases h2 : r.datname.isNone = true
  · rw [if_pos h2]
  rw [if_neg h2]
  by_cases h3 : r.numBackends.isNone = true
  · rw [if_pos h3]
  rw [if_neg h3]
  by_cases h4 : r.xactCommit.isNone = true
  · rw [if_pos h4]
  rw [if_neg h4]
  by_cases h5 : r.xactRollback.isNone = true
  · rw [if_pos h5]
  rw [if_neg h5]
  by_cases h6 : r.blksRead.isNone = true
  · rw [if_pos h6]
  rw [if_neg h6]
  by_cases h7 : r.blksHit.isNone = true
  · rw [if_pos h7]
  rw [if_neg h7]
  by_cases h8 : r.tupReturned.isNone = true
  · rw [if_pos h8]
  rw [if_neg h8]
  by_cases h9 : r.tupFetched.isNone = true
  · rw [if_pos h9]
  rw [if_neg h9]
  by_cases h10 : r.tupInserted.isNone = true
  · rw [if_pos h10]
  rw [if_neg h10]
  by_cases h11 : r.tupUpdated.isNone = true
  · rw [if_pos h11]
  rw [if_neg h11]
  by_cases h12 : r.tupDeleted.isNone = true
  · rw [if_pos h12]
  rw [if_neg h12]
  by_cases h13 : r.conflicts.isNone = true
  · rw [if_pos h13]
  rw [if_neg h13]
  by_cases h14 : r.tempFiles.isNone = true
  · rw [if_pos h14]
  rw [if_neg h14]
  by_cases h15 : r.tempBytes.isNone = true
  · rw [if_pos h15]
  rw [if_neg h15]
  by_cases h16 : r.deadlocks.isNone = true
  · rw [if_pos h16]
  rw [if_neg h16]
  by_cases h17 : r.blkReadTime.isNone = true
  · rw [if_pos h17]
  rw [if_neg h17]
  by_cases h18 : r.blkWriteTime.isNone = true
  · rw [if_pos h18]
  rw [if_neg h18]
  by_cases h19 : (avail && r.activeTime.isNone) = true
  · rw [if_pos h19]
  rw [if_neg h19]
  exact absurd ⟨Bool.eq_false_iff.mpr h1,
    Bool.eq_false_iff.mpr h2,
    Bool.eq_false_iff.mpr h3,
    Bool.eq_false_iff.mpr h4,
    Bool.eq_false_iff.mpr h5,
    Bool.eq_false_iff.mpr h6,
    Bool.eq_false_iff.mpr h7,
    Bool.eq_false_iff.mpr h8,
    Bool.eq_false_iff.mpr h9,
    Bool.eq_false_iff.mpr h10,
    Bool.eq_false_iff.mpr h11,
    Bool.eq_false_iff.mpr h12,
    Bool.eq_false_iff.mpr h13,
    Bool.eq_false_iff.mpr h14,
    Bool.eq_false_iff.mpr h15,
    Bool.eq_false_iff.mpr h16,
    Bool.eq_false_iff.mpr h17,
    Bool.eq_false_iff.mpr h18,
    Bool.eq_false_iff.mpr h19⟩ h

theorem emittedList_length (avail : Bool) (r : Row) :
    (emittedList avail r).length = if avail then 18 else 17 := by
  cases avail <;> simp [emittedList]

/-- A row with any requested numeric non-reset-timestamp column absent is
stopped by the corresponding guard and emits nothing. -/
theorem processRow_missing_required (avail : Bool) (r : Row)
    (hm : MissingRequiredColumn avail r) : processRow avail r = [] := by
  apply processRow_of_not_complete
  intro hc
  obtain ⟨-, -, h3, h4, h5, h6, h7, h8, h9, h10, h11, h12, h13, h14, h15,
    h16, h17, h18, h19⟩ := hc
  rcases hm with
    hm|hm|hm|hm|hm|hm|hm|hm|hm|hm|hm|hm|hm|hm|hm|hm|⟨ha, hm⟩ <;> simp_all

theorem Version.GTE_iff (v o : Version) :
    v.GTE o = true ↔
      o.major < v.major ∨ (v.major = o.major ∧
        (o.minor < v.minor ∨ (v.minor = o.minor ∧ o.patch ≤ v.patch))) := by
  unfold Version.GTE
  by_cases h1 : v.major = o.major <;> by_cases h2 : v.minor = o.minor <;>
    simp [h1, h2]

theorem Version.GTE_trans {a b c : Version} (h1 : a.GTE b = true)
    (h2 : b.GTE c = true) : a.GTE c = true := by
  rw [Version.GTE_iff] at h1 h2 ⊢
  omega

/-- A stream that scans cleanly up to a scan error pushes exactly the
observations of the rows before the error and returns that error. -/
theorem consumeRows_scan_error (avail : Bool) (e : String)
    (okRows : List Row) (tail : List (Except String Row)) :
    consumeRows avail (okRows.map Except.ok ++ Except.error e :: tail) =
      ((okRows.map (processRow avail)).flatten, some e) := by
  induction okRows with
  | nil => rfl
  | cons r rs ih => simp [consumeRows, ih]

/-- A clean stream pushes the concatenation of the rows' observations and
returns no error. -/
theorem consumeRows_ok (avail : Bool) (okRows : List Row) :
    consumeRows avail (okRows.map Except.ok) =
      ((okRows.map (processRow avail)).flatten, none) := by
  induction okRows with
  | nil => rfl
  | cons r rs ih => simp [consumeRows, ih]

/-! ## Claims -/

/-- C1 counterexample: at version 13.0.0, for a row identical to the fully
populated `sampleRow` except that exactly one optional non-identity,
non-reset-timestamp column (the deadlock count) is absent, the code emits
0 observations — not the 16 (= 17 - 1) the claim requires — so none of the
row's other metrics is emitted either. -/
theorem C1_counterexample :
    processRow (activeTimeAvail ⟨13, 0, 0⟩)
        { sampleRow with deadlocks := none } = [] ∧
    (processRow (activeTimeAvail ⟨13, 0, 0⟩) sampleRow).length = 17 ∧
    (processRow (activeTimeAvail ⟨13, 0, 0⟩)
        { sampleRow with deadlocks := none }).length ≠
      (processRow (activeTimeAvail ⟨13, 0, 0⟩) sampleRow).length - 1 := by
  decide

/-- C1 (amended): for every row, if any optional non-identity,
non-reset-timestamp column value (the deadlock count, the conflict count,
any of the numeric statistics, or the version-gated active time when
requested) is absent, the Collector emits ZERO observations for that row —
the entire row is skipped — no error is returned for it, and subsequent
rows are processed unchanged. -/
theorem C1_missing_optional_column_skips_row (avail : Bool) (r : Row)
    (rest : List (Except String Row)) (h : MissingRequiredColumn avail r) :
    processRow avail r = [] ∧
    consumeRows avail (Except.ok r :: rest) = consumeRows avail rest := by
  have hnil : processRow avail r = [] := processRow_missing_required avail r h
  exact ⟨hnil, by simp [consumeRows, hnil]⟩

theorem C1_missing_optional_column_skips_row_witness :
    processRow false { sampleRow with deadlocks := none } = [] ∧
    consumeRows false (Except.ok { sampleRow with deadlocks := none } :: []) =
      consumeRows false [] :=
  C1_missing_optional_column_skips_row false
    { sampleRow with deadlocks := none } [] (by decide)

/-- C3: a row whose `datid` or `datname` is absent emits zero observations,
produces no error (the loop `continue`s after a debug diagnostic), and the
subsequent rows of the stream are processed exactly as they would have been
without it. -/
theorem C3_identity_missing_row_skipped (avail : Bool) (r : Row)
    (rest : List (Except String Row))
    (h : r.datid = none ∨ r.datname = none) :
    processRow avail r = [] ∧
    consumeRows avail (Except.ok r :: rest) = consumeRows avail rest := by
  have hnil : processRow avail r = [] := by
    apply processRow_of_not_complete
    intro hc
    rcases h with h | h
    · obtain ⟨h1, -⟩ := hc
      rw [h] at h1
      simp at h1
    · obtain ⟨-, h2, -⟩ := hc
      rw [h] at h2
      simp at h2
  exact ⟨hnil, by simp [consumeRows, hnil]⟩

theorem C3_identity_missing_row_skipped_witness :
    processRow false { sampleRow with datname := none } = [] ∧
    consumeRows false (Except.ok { sampleRow with datname := none } ::
        [Except.ok sampleRow]) =
      consumeRows false [Except.ok sampleRow] :=
  C3_identity_missing_row_skipped false { sampleRow with datname := none }
    [Except.ok sampleRow] (Or.inr rfl)

/-- C2: for every row with all requested columns present, the number of
observations emitted equals the number of catalog entries active for the
ColumnSet (the requested columns minus the two identity columns); at
detected version 13.0.0 exactly 17 observations are emitted and none is
for active_time; at detected version 14.2.0 with raw active_time 4200,
exactly 18 observations are emitted, including active_time with value
4.2. -/
theorem C2_observation_count (r : Row) :
    (∀ v : Version, RowComplete (activeTimeAvail v) r →
      (processRow (activeTimeAvail v) r).length =
        (statDatabaseColumns v).length - 2) ∧
    (RowComplete (activeTimeAvail ⟨13, 0, 0⟩) r →
      (processRow (activeTimeAvail ⟨13, 0, 0⟩) r).length = 17 ∧
      "active_time_seconds_total" ∉
        (processRow (activeTimeAvail ⟨13, 0, 0⟩) r).map Observation.name) ∧
    (RowComplete (activeTimeAvail ⟨14, 2, 0⟩) r → r.activeTime = some 4200 →
      (processRow (activeTimeAvail ⟨14, 2, 0⟩) r).length = 18 ∧
      ∃ o ∈ processRow (activeTimeAvail ⟨14, 2, 0⟩) r,
        o.name = "active_time_seconds_total" ∧ o.value = 4.2) := by
  have e13 : activeTimeAvail ⟨13, 0, 0⟩ = false := by decide
  have e14 : activeTimeAvail ⟨14, 2, 0⟩ = true := by decide
  refine ⟨?_, ?_, ?_⟩
  · intro v hv
    rw [processRow_complete _ _ hv, emittedList_length, statDatabaseColumns]
    cases h : activeTimeAvail v <;> simp [h, baseColumns]
  · intro h
    rw [e13] at h ⊢
    rw [processRow_complete _ _ h]
    refine ⟨by rw [emittedList_length]; rfl, ?_⟩
    simp [emittedList]
  · intro h hA
    rw [e14] at h ⊢
    rw [processRow_complete _ _ h]
    refine ⟨by rw [emittedList_length]; rfl, ?_⟩
    simp only [emittedList, if_true]
    refine ⟨⟨"active_time_seconds_total", .counter, r.activeTime.getD 0 / 1000,
      [r.datid.getD "", r.datname.getD ""]⟩,
      List.mem_append_right _ (by simp), rfl, ?_⟩
    norm_num [hA]

theorem C2_observation_count_witness :
    (processRow (activeTimeAvail ⟨13, 0, 0⟩) sampleRow).length = 17 ∧
    "active_time_seconds_total" ∉
      (processRow (activeTimeAvail ⟨13, 0, 0⟩) sampleRow).map Observation.name ∧
    (processRow (activeTimeAvail ⟨14, 2, 0⟩) sampleRow).length = 18 ∧
    ∃ o ∈ processRow (activeTimeAvail ⟨14, 2, 0⟩) sampleRow,
      o.name = "active_time_seconds_total" ∧ o.value = 4.2 := by
  obtain ⟨-, h2, h3⟩ := C2_observation_count sampleRow
  obtain ⟨a, b⟩ := h2 (by decide)
  obtain ⟨c, d⟩ := h3 (by decide) rfl
  exact ⟨a, b, c, d⟩

/-- C4: a query-execution failure is returned as the cycle's error with zero
observations pushed for the whole cycle; a scan failure mid-stream is
returned as the cycle's error, and neither the failing row nor any
subsequent row contributes an observation (only the rows scanned cleanly
before the failure do). -/
theorem C4_fatal_errors (v : Version) (e : String) (okRows : List Row)
    (tail : List (Except String Row)) :
    update v (Except.error e) = ([], some e) ∧
    update v (Except.ok (okRows.map Except.ok ++ Except.error e :: tail)) =
      ((okRows.map (processRow (activeTimeAvail v))).flatten, some e) :=
  ⟨rfl, consumeRows_scan_error (activeTimeAvail v) e okRows tail⟩

/-- C5: the accumulated-active-time column is requested iff the detected
version is ≥ 14.0.0; when requested and present with raw value x, the
emitted observation's value is x / 1000 while the decoded row still holds
the raw value x. -/
theorem C5_active_time_gate_and_scaling (v : Version) (r : Row) (x : ℚ)
    (hc : RowComplete true r) (hx : r.activeTime = some x) :
    ("active_time" ∈ statDatabaseColumns v ↔ activeTimeAvail v = true) ∧
    (∃ o ∈ processRow true r,
      o.name = "active_time_seconds_total" ∧ o.value = x / 1000) ∧
    r.activeTime = some x := by
  refine ⟨?_, ?_, hx⟩
  · cases h : activeTimeAvail v <;>
      simp [statDatabaseColumns, h, baseColumns]
  · rw [processRow_complete _ _ hc]
    simp only [emittedList, if_true]
    refine ⟨⟨"active_time_seconds_total", .counter, r.activeTime.getD 0 / 1000,
      [r.datid.getD "", r.datname.getD ""]⟩,
      List.mem_append_right _ (by simp), rfl, ?_⟩
    rw [hx]
    rfl

theorem C5_active_time_gate_and_scaling_witness :
    (2500 : ℚ) / 1000 = 2.5 ∧
    (("active_time" ∈ statDatabaseColumns ⟨14, 0, 0⟩ ↔
        activeTimeAvail ⟨14, 0, 0⟩ = true) ∧
      (∃ o ∈ processRow true { sampleRow with activeTime := some 2500 },
        o.name = "active_time_seconds_total" ∧ o.value = 2500 / 1000) ∧
      ({ sampleRow with activeTime := some 2500 } : Row).activeTime =
        some 2500) :=
  ⟨by norm_num,
    C5_active_time_gate_and_scaling ⟨14, 0, 0⟩
      { sampleRow with activeTime := some 2500 } 2500 (by decide) rfl⟩

/-- C6: a row that reaches emission with the reset-timestamp column absent
still emits a reset-timestamp observation — with value exactly 0 and kind
Counter — instead of skipping it, and the row's emission is otherwise the
full set (no error arises from the absence). -/
theorem C6_stats_reset_default (avail : Bool) (r : Row)
    (hc : RowComplete avail r) (hr : r.statsReset = none) :
    (processRow avail r).length = (if avail then 18 else 17) ∧
    ∃ o ∈ processRow avail r,
      o.name = "stats_reset" ∧ o.kind = ValueKind.counter ∧ o.value = 0 := by
  rw [processRow_complete _ _ hc]
  refine ⟨emittedList_length avail r, ?_⟩
  simp only [emittedList, hr]
  exact ⟨⟨"stats_reset", .counter, 0,
    [r.datid.getD "", r.datname.getD ""]⟩,
    List.mem_append_left _ (by simp), rfl, rfl, rfl⟩

theorem C6_stats_reset_default_witness :
    (processRow false { sampleRow with statsReset := none }).length = 17 ∧
    ∃ o ∈ processRow false { sampleRow with statsReset := none },
      o.name = "stats_reset" ∧ o.kind = ValueKind.counter ∧ o.value = 0 :=
  C6_stats_reset_default false { sampleRow with statsReset := none }
    (by decide) rfl

/-- C7: the derived ColumnSet is the same ordered sequence for every call
with a given version — the unconditional columns in fixed declared order
followed by each satisfied version-gated column in declaration order — and
the selection is monotone: for versions v1 ≥ v2, the version-gated part for
v1 contains every version-gated column selected for v2. -/
theorem C7_columns_deterministic_monotone (v1 v2 : Version)
    (h : v1.GTE v2 = true) :
    statDatabaseColumns v1 = baseColumns ++ gatedColumns v1 ∧
    statDatabaseColumns v2 = baseColumns ++ gatedColumns v2 ∧
    ∀ c ∈ gatedColumns v2, c ∈ gatedColumns v1 := by
  refine ⟨rfl, rfl, ?_⟩
  intro c hc
  cases h2 : activeTimeAvail v2 with
  | false =>
      rw [gatedColumns, h2] at hc
      simp at hc
  | true =>
      have h1 : activeTimeAvail v1 = true := Version.GTE_trans h h2
      rw [gatedColumns, h2] at hc
      rw [gatedColumns, h1]
      simpa using hc

theorem C7_columns_deterministic_monotone_witness :
    statDatabaseColumns ⟨14, 2, 0⟩ = baseColumns ++ gatedColumns ⟨14, 2, 0⟩ ∧
    statDatabaseColumns ⟨14, 0, 0⟩ = baseColumns ++ gatedColumns ⟨14, 0, 0⟩ ∧
    ∀ c ∈ gatedColumns ⟨14, 0, 0⟩, c ∈ gatedColumns ⟨14, 2, 0⟩ :=
  C7_columns_deterministic_monotone ⟨14, 2, 0⟩ ⟨14, 0, 0⟩ (by decide)

/-- C9: row emission is all-or-nothing over the non-reset-timestamp
columns: every scanned row emits either zero observations or the complete
active set (17, or 18 when active_time is requested); and if any requested
numeric column other than the reset timestamp is absent, the row emits
nothing at all. -/
theorem C9_all_or_nothing (avail : Bool) (r : Row) :
    (processRow avail r = [] ∨
      (processRow avail r).length = (if avail then 18 else 17)) ∧
    (MissingRequiredColumn avail r → processRow avail r = []) := by
  constructor
  · by_cases hc : RowComplete avail r
    · right
      rw [processRow_complete _ _ hc, emittedList_length]
    · left
      exact processRow_of_not_complete _ _ hc
  · exact processRow_missing_required avail r

theorem C9_all_or_nothing_witness :
    processRow true { sampleRow with blksHit := none } = [] :=
  (C9_all_or_nothing true { sampleRow with blksHit := none }).2
    (Or.inr (Or.inr (Or.inr (Or.inr (Or.inl rfl)))))

/-- C10: for every emitted row, every observation carries exactly the two
label values [datid, datname] in that order; an observation has kind Gauge
exactly when it is the backend-count metric; and a nonempty emission
contains exactly one Gauge observation — the first — with every other kind
Counter. -/
theorem C10_kinds_and_labels (avail : Bool) (r : Row) :
    (∀ o ∈ processRow avail r,
      o.labels = [r.datid.getD "", r.datname.getD ""]) ∧
    (∀ o ∈ processRow avail r,
      (o.kind = ValueKind.gauge ↔ o.name = "numbackends")) ∧
    (processRow avail r ≠ [] →
      (processRow avail r).map Observation.kind =
        ValueKind.gauge ::
          List.replicate (if avail then 17 else 16) ValueKind.counter) := by
  by_cases hc : RowComplete avail r
  · rw [processRow_complete _ _ hc]
    cases avail <;> refine ⟨?_, ?_, fun _ => ?_⟩ <;>
      simp [emittedList, List.replicate]
  · have hnil := processRow_of_not_complete _ _ hc
    rw [hnil]
    exact ⟨by simp, by simp, fun hne => absurd rfl hne⟩

theorem C10_kinds_and_labels_witness :
    ((processRow false sampleRow).map Observation.kind =
      ValueKind.gauge :: List.replicate 16 ValueKind.counter) ∧
    (⟨"numbackends", ValueKind.gauge, 3, ["12345", "appdb"]⟩ :
        Observation).labels =
      [sampleRow.datid.getD "", sampleRow.datname.getD ""] :=
  ⟨(C10_kinds_and_labels false sampleRow).2.2 (by decide),
   (C10_kinds_and_labels false sampleRow).1
     ⟨"numbackends", ValueKind.gauge, 3, ["12345", "appdb"]⟩ (by decide)⟩

theorem splitOnComma_no_comma (x : List Char) (hx : ',' ∉ x) :
    splitOnComma x = [x] := by
  induction x with
  | nil => rfl
  | cons c cs ih =>
      have hc : c ≠ ',' := fun h => hx (h ▸ List.mem_cons_self _ _)
      have hcs : ',' ∉ cs := fun h => hx (List.mem_cons_of_mem _ h)
      simp [splitOnComma, hc, ih hcs]

theorem splitOnComma_append (x ys : List Char) (hx : ',' ∉ x) :
    splitOnComma (x ++ ',' :: ys) = x :: splitOnComma ys := by
  induction x with
  | nil => simp [splitOnComma]
  | cons c cs ih =>
      have hc : c ≠ ',' := fun h => hx (h ▸ List.mem_cons_self _ _)
      have hcs : ',' ∉ cs := fun h => hx (List.mem_cons_of_mem _ h)
      simp [splitOnComma, hc, ih hcs]

theorem foldl_join_data (xs : List String) (acc : String) :
    (xs.foldl (fun a x => a ++ "," ++ x) acc).data =
      acc.data ++ joinTail xs := by
  induction xs generalizing acc with
  | nil => simp [joinTail]
  | cons x xs ih =>
      simp [List.foldl_cons, joinTail, ih, String.data_append]

theorem stringsJoin_data (e : String) (rest : List String) :
    (stringsJoin (e :: rest) ",").data = e.data ++ joinTail rest := by
  simp [stringsJoin, foldl_join_data]

theorem splitOnComma_joinTail (rest : List String) (e : String)
    (he : ',' ∉ e.data) (hrest : ∀ c ∈ rest, ',' ∉ c.data) :
    splitOnComma (e.data ++ joinTail rest) =
      e.data :: rest.map String.data := by
  induction rest generalizing e with
  | nil =>
      simp [joinTail, splitOnComma_no_comma e.data he]
  | cons x xs ih =>
      have hx : ',' ∉ x.data := hrest x (List.mem_cons_self _ _)
      have hxs : ∀ c ∈ xs, ',' ∉ c.data :=
        fun c hc => hrest c (List.mem_cons_of_mem _ hc)
      have hjt : joinTail (x :: xs) = ',' :: (x.data ++ joinTail xs) := by
        simp [joinTail]
      rw [hjt, splitOnComma_append _ _ he, ih x hx hxs]
      simp

/-- C8: the query builder is a pure function of the ColumnSet: for every
non-empty sequence of (comma-free) column names, the produced text is
exactly `SELECT <columns, comma-joined, in order> FROM pg_stat_database;`
— the fixed source view with no filtering clause — and splitting the
select list at the commas recovers exactly the given columns in the given
order. -/
theorem C8_query_builder (cols : List String) (hne : cols ≠ [])
    (hcf : ∀ c ∈ cols, ',' ∉ c.data) :
    statDatabaseQuery cols =
      "SELECT " ++ stringsJoin cols "," ++ " FROM pg_stat_database;" ∧
    splitOnComma ((stringsJoin cols ",").data) = cols.map String.data := by
  refine ⟨rfl, ?_⟩
  cases cols with
  | nil => exact absurd rfl hne
  | cons e rest =>
      rw [stringsJoin_data]
      exact splitOnComma_joinTail rest e (hcf e (List.mem_cons_self e rest))
        (fun c hc => hcf c (List.mem_cons_of_mem _ hc))

theorem C8_query_builder_witness :
    statDatabaseQuery (statDatabaseColumns ⟨14, 0, 0⟩) =
      "SELECT " ++ stringsJoin (statDatabaseColumns ⟨14, 0, 0⟩) "," ++
        " FROM pg_stat_database;" ∧
    splitOnComma ((stringsJoin (statDatabaseColumns ⟨14, 0, 0⟩) ",").data) =
      (statDatabaseColumns ⟨14, 0, 0⟩).map String.data :=
  C8_query_builder _ (by decide) (by decide)
